import Mathlib

/-!
Verification of the connection-and-transfer engine of `src/sftp_client.py`
(class `SFTPClient`): a shallow embedding of its state, its operations and
their externally visible effects, together with theorems settling the
specification claims about authentication order, path resolution, listing
order, connection preconditions, disconnect idempotence, failure cleanup
and error reporting.

Modelling conventions:
  * Python strings are Lean `String`s; helpers such as `str.rstrip('/')`,
    `str.split('/')`, `'/'.join`, `str.startswith('/')`, `str.lower()`,
    `os.path.dirname/join/isabs` (POSIX) and `stat.filemode` are
    re-implemented structurally below so that everything evaluates.
  * `None`-able Python values are `Option`s; Python truthiness of a string
    (`if s:`) is `s ≠ ""` on `some s`, of an int (`if n:`) is `n ≠ 0`.
  * External collaborators (paramiko transport, local filesystem) are
    oracles: record-of-functions environments fixing every response the
    code can observe.  The requests the code issues, the log lines it
    writes and the status-callback invocations it makes are collected in
    an event trace, so `no network I/O` and `no duplicate notification`
    are statements about traces.
  * Each Python method becomes a Lean function from state and oracles to
    `result × state × trace` (or `result × trace` when it never writes
    state).  Raising `ConnectionError` — the only exception the code lets
    escape apart from the re-raise in the two listing methods — is the
    `Except.error` constructor.
-/

namespace SFTP

/-- Python truthiness of an optional string argument (`if s:`). -/
def strTruthy : Option String → Bool
  | none => false
  | some s => !(s == "")

/-- Python truthiness of an optional integer attribute (`if n:`). -/
def natTruthy : Option Nat → Bool
  | none => false
  | some n => !(n == 0)

/-- `str.startswith('/')`. -/
def startsWithSlash (s : String) : Bool :=
  match s.toList with
  | [] => false
  | c :: _ => c == '/'

/-- `str.endswith('/')`. -/
def endsWithSlash (s : String) : Bool :=
  match s.toList.getLast? with
  | some c => c == '/'
  | none => false

/-- `str.rstrip('/')`: drop all trailing `/` characters. -/
def rstripSlash (s : String) : String :=
  ((s.toList.reverse.dropWhile (fun c => c == '/')).reverse).asString

/-- Python `str.split('/')` on a character list: `""` splits to `[""]`,
`"/a/b"` to `["", "a", "b"]`. -/
def splitSlash : List Char → List (List Char)
  | [] => [[]]
  | c :: rest =>
    let r := splitSlash rest
    if c == '/' then [] :: r
    else
      match r with
      | h :: t => (c :: h) :: t
      | [] => [[c]]

/-- `'/'.join(parts)`. -/
def joinSlash (parts : List (List Char)) : String :=
  (List.intercalate ['/'] parts).asString

/-- The remote path resolution logic inlined in
`SFTPClient.change_remote_directory` (src/sftp_client.py lines 246-258):
`..` strips the last segment of the current cursor (root stays root, via
`'/'.join(parts[:-1]) or '/'`), a token starting with `/` is taken
verbatim, anything else is appended under the stripped cursor. -/
def resolveRemotePath (currentRemotePath path : String) : String :=
  if path == ".." then
    let currentParts := splitSlash (rstripSlash currentRemotePath).toList
    if currentParts.length > 1 then
      let joined := joinSlash currentParts.dropLast
      if joined == "" then "/" else joined
    else "/"
  else if startsWithSlash path then
    path
  else
    rstripSlash currentRemotePath ++ "/" ++ path

/-- POSIX `os.path.dirname`. -/
def posixDirname (s : String) : String :=
  let cs := s.toList
  let head := (cs.reverse.dropWhile (fun c => !(c == '/'))).reverse
  if head.isEmpty || head.all (fun c => c == '/') then head.asString
  else ((head.reverse.dropWhile (fun c => c == '/')).reverse).asString

/-- POSIX `os.path.isabs`. -/
def posixIsabs (s : String) : Bool := startsWithSlash s

/-- POSIX `os.path.join` with a single extra component. -/
def posixJoin (a b : String) : String :=
  if startsWithSlash b then b
  else if a == "" || endsWithSlash a then a ++ b
  else a ++ "/" ++ b

/-- `stat.S_ISDIR`. -/
def S_ISDIR (mode : Nat) : Bool := (mode &&& 0o170000) == 0o040000

/-- `stat.S_ISREG`. -/
def S_ISREG (mode : Nat) : Bool := (mode &&& 0o170000) == 0o100000

def filemodeCell (mode : Nat) : List (Nat × Char) → Char
  | [] => '-'
  | (bit, ch) :: rest => if mode &&& bit == bit then ch else filemodeCell mode rest

/-- CPython `stat.filemode`: ten characters, each chosen by the first
matching bit pattern of its column. -/
def filemode (mode : Nat) : String :=
  (([ [(0o120000, 'l'), (0o140000, 's'), (0o100000, '-'), (0o060000, 'b'),
       (0o040000, 'd'), (0o020000, 'c'), (0o010000, 'p')],
      [(0o400, 'r')], [(0o200, 'w')],
      [(0o4100, 's'), (0o4000, 'S'), (0o100, 'x')],
      [(0o40, 'r')], [(0o20, 'w')],
      [(0o2010, 's'), (0o2000, 'S'), (0o10, 'x')],
      [(0o4, 'r')], [(0o2, 'w')],
      [(0o1001, 't'), (0o1000, 'T'), (0o1, 'x')] ] :
    List (List (Nat × Char))).map (filemodeCell mode)).asString

/-- A paramiko `SFTPAttributes`: the fields `list_remote_directory` and
`get_remote_file_info` read, each `Option` because paramiko may leave
them unset. -/
structure RawAttr where
  filename : String
  st_size : Option Nat
  st_mtime : Option Nat
  st_mode : Option Nat
deriving DecidableEq

/-- An `os.stat` result, as read by `list_local_directory`. -/
structure LocalStat where
  st_size : Nat
  st_mtime : Nat
  st_mode : Nat
deriving DecidableEq

/-- The dictionary built per entry in `list_remote_directory` (lines
174-182). -/
structure RemoteEntry where
  name : String
  size : Nat
  modified : Option Nat
  permissions : String
  is_directory : Bool
  is_file : Bool
  raw_mode : Option Nat
deriving DecidableEq

/-- The dictionary built per entry in `list_local_directory` (lines
212-220). -/
structure LocalEntry where
  name : String
  size : Nat
  modified : Option Nat
  permissions : String
  is_directory : Bool
  is_file : Bool
  full_path : String
deriving DecidableEq

/-- The dictionary returned by `get_remote_file_info` (lines 453-459). -/
structure RemoteFileInfo where
  size : Option Nat
  modified : Option Nat
  permissions : String
  is_directory : Bool
  is_file : Bool
deriving DecidableEq

/-- A request issued to the remote side over the SFTP channel. -/
inductive RemoteReq where
  | listdirAttr (path : String)
  | listdir (path : String)
  | put (localPath remotePath : String)
  | get (remotePath localPath : String)
  | remove (path : String)
  | mkdir (path : String)
  | rmdir (path : String)
  | stat (path : String)
  | getcwd
deriving DecidableEq

/-- Externally visible effects of one operation, in order of occurrence:
the transport connect call (with which credentials were placed in
`auth_kwargs`), the SFTP-channel open, remote requests, local directory
creation, channel closes, log lines and status-callback invocations. -/
inductive Event where
  | netConnect (usedKey usedPassword : Bool)
  | sftpOpen
  | remoteReq (r : RemoteReq)
  | makedirs (path : String)
  | closeSftp
  | closeSsh
  | logMsg (message : String)
  | statusCb (message : String)
deriving DecidableEq

/-- The mutable fields of an `SFTPClient` instance (lines 25-42):
`ssh_open` / `sftp_open` stand for `ssh_client` / `sftp_client` being
non-`None`, and `has_status_callback` for `status_callback` being set. -/
structure ClientState where
  ssh_open : Bool
  sftp_open : Bool
  is_connected : Bool
  host : Option String
  port : Nat
  username : Option String
  current_remote_path : String
  current_local_path : String
  has_status_callback : Bool
deriving DecidableEq

/-- The state `__init__` leaves behind, with `cwd` for `os.getcwd()`. -/
def initState (cwd : String) : ClientState :=
  { ssh_open := false, sftp_open := false, is_connected := false,
    host := none, port := 22, username := none,
    current_remote_path := "/", current_local_path := cwd,
    has_status_callback := false }

/-- Outcome of `RSAKey.from_private_key_file(path)` with no passphrase. -/
inductive KeyLoad where
  | ok
  | passwordRequired
  | otherError
deriving DecidableEq

/-- Outcome of the retry `RSAKey.from_private_key_file(path, password=...)`;
a failure here escapes to the outer handlers as an SSH or generic
exception. -/
inductive KeyLoad2 where
  | ok
  | sshExc
  | otherExc
deriving DecidableEq

/-- Outcome of `SSHClient.connect`. -/
inductive NetResult where
  | ok
  | authExc
  | sshExc
  | otherExc
deriving DecidableEq

/-- Oracle fixing everything the environment does during one `connect`
call. -/
structure ConnectEnv where
  keyPathExists : Bool
  keyLoad1 : KeyLoad
  keyLoad2 : KeyLoad2
  sshConnect : NetResult
  sftpOpenOk : Bool
  getcwdResult : Option String
deriving DecidableEq

/-- Oracle for the responses of the remote side: `none` / `false` means
the paramiko call raised. -/
structure RemoteEnv where
  listdirAttr : String → Option (List RawAttr)
  listdir : String → Bool
  put : String → String → Bool
  get : String → String → Bool
  remove : String → Bool
  mkdir : String → Bool
  rmdir : String → Bool
  stat : String → Option RawAttr

/-- Oracle for the local filesystem calls the client makes. -/
structure LocalEnv where
  listdir : String → Option (List String)
  statInfo : String → Option LocalStat
  isdir : String → Bool
  isfile : String → Bool
  path_exists : String → Bool
  getsize : String → Nat
  abspath : String → String
  makedirs : String → Bool

/-- The `if self.status_callback:` guard around a status notification. -/
def statusEvents (st : ClientState) (message : String) : List Event :=
  if st.has_status_callback then [Event.statusCb message] else []

/-- The exceptions an operation can let escape: `ConnectionError("Not
connected to server")`, or the exception logged and re-raised by the two
listing methods. -/
inductive PyExc where
  | connectionError
  | raised
deriving DecidableEq

/-- The tail of `SFTPClient.connect` from line 105 on: call
`SSHClient.connect` with the prepared `auth_kwargs` (`usedKey`/
`usedPassword` record which credentials they carry), open the SFTP
channel, set `is_connected`, read the initial cursor with
`getcwd() or "/"`, and translate each exception into its handler's log
line and status notification (lines 120-134; exception texts are
abbreviated to the fixed message prefixes). -/
def connectViaNet (env : ConnectEnv) (st0 : ClientState) (host : String) (port : Nat)
    (username : String) (usedKey usedPassword : Bool) (pre : List Event) :
    Bool × ClientState × List Event :=
  let ev := pre ++ [Event.netConnect usedKey usedPassword]
  match env.sshConnect with
  | NetResult.ok =>
    let ev := ev ++ [Event.sftpOpen]
    if env.sftpOpenOk then
      let cursor :=
        match env.getcwdResult with
        | some s => if s == "" then "/" else s
        | none => "/"
      let st1 :=
        { st0 with
          sftp_open := true,
          is_connected := true,
          current_remote_path := cursor }
      let msg := "Connected to " ++ host ++ ":" ++ toString port ++ " as " ++ username
      (true, st1,
        ev ++ [Event.remoteReq RemoteReq.getcwd, Event.logMsg msg] ++
          statusEvents st1 ("Connected to " ++ host))
    else
      (false, st0, ev ++ [Event.logMsg "Connection failed"] ++
        statusEvents st0 "Connection failed")
  | NetResult.authExc =>
    (false, st0, ev ++ [Event.logMsg "Authentication failed"] ++
      statusEvents st0 "Authentication failed")
  | NetResult.sshExc =>
    (false, st0, ev ++ [Event.logMsg "SSH connection error"] ++
      statusEvents st0 "Connection error")
  | NetResult.otherExc =>
    (false, st0, ev ++ [Event.logMsg "Connection failed"] ++
      statusEvents st0 "Connection failed")

/-- `SFTPClient.connect` (lines 44-134).  The method records host, port
and username, creates the `SSHClient` (so `ssh_open` becomes true before
any authentication decision), then selects credentials: a key file that
is given and exists is loaded first; `PasswordRequiredException` retries
the load with the password as passphrase when one is given and otherwise
logs and returns `False`; any other key-load failure falls back to
password authentication when a password is given and otherwise returns
`False`; without usable key material a password is used directly, and
with neither the method logs and returns `False` before any network
call. -/
def connect (env : ConnectEnv) (st : ClientState) (host username : String)
    (password private_key_path : Option String) (port : Nat) :
    Bool × ClientState × List Event :=
  let st0 :=
    { st with
      host := some host,
      port := port,
      username := some username,
      ssh_open := true }
  if strTruthy private_key_path && env.keyPathExists then
    match env.keyLoad1 with
    | KeyLoad.ok => connectViaNet env st0 host port username true false []
    | KeyLoad.passwordRequired =>
      if strTruthy password then
        match env.keyLoad2 with
        | KeyLoad2.ok => connectViaNet env st0 host port username true false []
        | KeyLoad2.sshExc =>
          (false, st0, [Event.logMsg "SSH connection error"] ++
            statusEvents st0 "Connection error")
        | KeyLoad2.otherExc =>
          (false, st0, [Event.logMsg "Connection failed"] ++
            statusEvents st0 "Connection failed")
      else
        (false, st0, [Event.logMsg "Private key is encrypted but no password provided"])
    | KeyLoad.otherError =>
      let pre := [Event.logMsg "Failed to load private key"]
      if strTruthy password then connectViaNet env st0 host port username false true pre
      else (false, st0, pre)
  else if strTruthy password then
    connectViaNet env st0 host port username false true []
  else
    (false, st0, [Event.logMsg "No authentication method provided"])

/-- `SFTPClient.disconnect` (lines 136-153): close the SFTP channel if
open, then the SSH transport if open, clear `is_connected`, and
unconditionally log and notify "Disconnected". -/
def disconnect (st : ClientState) : ClientState × List Event :=
  let sftpPart :=
    if st.sftp_open then ({ st with sftp_open := false }, [Event.closeSftp])
    else (st, ([] : List Event))
  let sshPart :=
    if sftpPart.1.ssh_open then
      ({ sftpPart.1 with ssh_open := false }, [Event.closeSsh])
    else (sftpPart.1, ([] : List Event))
  let st3 := { sshPart.1 with is_connected := false }
  (st3, sftpPart.2 ++ sshPart.2 ++ [Event.logMsg "Disconnected from server"] ++
    statusEvents st3 "Disconnected")

/-- The dictionary built per raw attribute in `list_remote_directory`
(lines 174-182): `st_size or 0`, a timestamp only when `st_mtime` is
truthy, permission string (nine dashes, as in the source) and mode flags
only when `st_mode` is truthy. -/
def remoteEntryOf (item : RawAttr) : RemoteEntry :=
  { name := item.filename
  , size := item.st_size.getD 0
  , modified := if natTruthy item.st_mtime then item.st_mtime else none
  , permissions :=
      if natTruthy item.st_mode then filemode (item.st_mode.getD 0) else "---------"
  , is_directory := if natTruthy item.st_mode then S_ISDIR (item.st_mode.getD 0) else false
  , is_file := if natTruthy item.st_mode then S_ISREG (item.st_mode.getD 0) else false
  , raw_mode := item.st_mode }

/-- Python string comparison (code-point lexicographic) on char lists. -/
def charListLE : List Char → List Char → Bool
  | [], _ => true
  | _ :: _, [] => false
  | a :: as, b :: bs => if a < b then true else if b < a then false else charListLE as bs

/-- The sort key of lines 186 and 224: `(not x['is_directory'],
x['name'].lower())`. -/
def pyKey (is_directory : Bool) (name : String) : Bool × List Char :=
  (!is_directory, name.toList.map Char.toLower)

/-- Python tuple comparison on the sort keys (`False < True` on the
first component, string comparison on the second). -/
def keyLE : Bool × List Char → Bool × List Char → Bool
  | (b1, s1), (b2, s2) => if b1 == b2 then charListLE s1 s2 else !b1 && b2

/-- Stable insertion: the new element goes after every element `b` with
`le b a`. -/
def pyInsert (le : α → α → Bool) (a : α) : List α → List α
  | [] => [a]
  | b :: bs => if le b a then b :: pyInsert le a bs else a :: b :: bs

/-- Model of Python `list.sort(key=...)`: a stable ascending sort by the
key order. -/
def pySort (le : α → α → Bool) (l : List α) : List α :=
  l.foldl (fun acc a => pyInsert le a acc) []

/-- The comparison `files.sort` uses on remote entries. -/
def remoteSortLE (x y : RemoteEntry) : Bool :=
  keyLE (pyKey x.is_directory x.name) (pyKey y.is_directory y.name)

/-- The comparison `files.sort` uses on local entries. -/
def localSortLE (x y : LocalEntry) : Bool :=
  keyLE (pyKey x.is_directory x.name) (pyKey y.is_directory y.name)

/-- `SFTPClient.list_remote_directory` (lines 155-191): raises
`ConnectionError` when not connected; otherwise defaults the path to the
current remote cursor, issues one `listdir_attr` request, maps and sorts
the entries; a listing failure is logged and re-raised. -/
def list_remote_directory (renv : RemoteEnv) (st : ClientState) (path : Option String) :
    Except PyExc (List RemoteEntry) × List Event :=
  if !st.is_connected then (Except.error PyExc.connectionError, [])
  else
    let p := path.getD st.current_remote_path
    match renv.listdirAttr p with
    | some items =>
      let files := (items.map remoteEntryOf)
      (Except.ok (pySort remoteSortLE files), [Event.remoteReq (RemoteReq.listdirAttr p)])
    | none =>
      (Except.error PyExc.raised,
       [Event.remoteReq (RemoteReq.listdirAttr p),
        Event.logMsg "Failed to list remote directory"])

/-- The per-item body of the `list_local_directory` loop (lines
208-221): `os.path.join`, `os.stat`, then the entry dictionary. -/
def localEntryOf (lenv : LocalEnv) (p item : String) (si : LocalStat) : LocalEntry :=
  let fp := posixJoin p item
  { name := item, size := si.st_size, modified := some si.st_mtime,
    permissions := filemode si.st_mode,
    is_directory := lenv.isdir fp, is_file := lenv.isfile fp, full_path := fp }

/-- The `list_local_directory` loop; `none` when some `os.stat` raised. -/
def localEntriesOf (lenv : LocalEnv) (p : String) : List String → Option (List LocalEntry)
  | [] => some []
  | item :: rest =>
    match lenv.statInfo (posixJoin p item) with
    | none => none
    | some si =>
      match localEntriesOf lenv p rest with
      | none => none
      | some es => some (localEntryOf lenv p item si :: es)

/-- `SFTPClient.list_local_directory` (lines 193-229): no connection
check; defaults the path to the current local cursor, enumerates and
stats each entry, sorts the same way as the remote listing; failures are
logged and re-raised. -/
def list_local_directory (lenv : LocalEnv) (st : ClientState) (path : Option String) :
    Except PyExc (List LocalEntry) × List Event :=
  let p := path.getD st.current_local_path
  match lenv.listdir p with
  | none => (Except.error PyExc.raised, [Event.logMsg "Failed to list local directory"])
  | some items =>
    match localEntriesOf lenv p items with
    | none => (Except.error PyExc.raised, [Event.logMsg "Failed to list local directory"])
    | some files => (Except.ok (pySort localSortLE files), [])

/-- `SFTPClient.change_remote_directory` (lines 231-267): raises
`ConnectionError` when not connected; resolves the token against the
current cursor, verifies the target with one `listdir` request, and only
then moves the cursor; on failure logs and returns `False` with the
cursor untouched. -/
def change_remote_directory (renv : RemoteEnv) (st : ClientState) (path : String) :
    Except PyExc Bool × ClientState × List Event :=
  if !st.is_connected then (Except.error PyExc.connectionError, st, [])
  else
    let new_path := resolveRemotePath st.current_remote_path path
    if renv.listdir new_path then
      (Except.ok true, { st with current_remote_path := new_path },
       [Event.remoteReq (RemoteReq.listdir new_path)])
    else
      (Except.ok false, st,
       [Event.remoteReq (RemoteReq.listdir new_path),
        Event.logMsg "Failed to change remote directory"])

/-- The `new_path` computation of `SFTPClient.change_local_directory`
(lines 280-288): `..` resolves via `os.path.dirname`, an absolute path
is taken verbatim, a relative one goes through `os.path.join`. -/
def localTargetPath (st : ClientState) (path : String) : String :=
  if path == ".." then posixDirname st.current_local_path
  else if posixIsabs path then path
  else posixJoin st.current_local_path path

/-- `SFTPClient.change_local_directory` (lines 269-298): resolves the
token with `localTargetPath`; moves the cursor (through
`os.path.abspath`) only when the target is a directory, else returns
`False` with the cursor untouched. -/
def change_local_directory (lenv : LocalEnv) (st : ClientState) (path : String) :
    Bool × ClientState × List Event :=
  let new_path := localTargetPath st path
  if lenv.isdir new_path then
    (true, { st with current_local_path := lenv.abspath new_path }, [])
  else
    (false, st, [])

/-- `SFTPClient.upload_file` (lines 300-334): raises `ConnectionError`
when not connected; a missing local source raises `FileNotFoundError`
inside the method's own `try`, which the handler logs (as
`Upload failed: Local file not found: ...`) before returning `False` —
no remote request is issued in that case; otherwise one `put` request is
issued and its failure is logged and reported as `False`.  (The
`os.path.getsize` read and the progress wrapper have no modelled
effect.) -/
def upload_file (renv : RemoteEnv) (lenv : LocalEnv) (st : ClientState)
    (local_path remote_path : String) : Except PyExc Bool × List Event :=
  if !st.is_connected then (Except.error PyExc.connectionError, [])
  else if !lenv.path_exists local_path then
    (Except.ok false, [Event.logMsg ("Upload failed: Local file not found: " ++ local_path)])
  else if renv.put local_path remote_path then
    (Except.ok true,
     [Event.remoteReq (RemoteReq.put local_path remote_path),
      Event.logMsg ("Uploaded " ++ local_path ++ " to " ++ remote_path)])
  else
    (Except.ok false,
     [Event.remoteReq (RemoteReq.put local_path remote_path),
      Event.logMsg "Upload failed"])

/-- `SFTPClient.download_file` (lines 336-370): raises `ConnectionError`
when not connected; creates the destination's parent directory when it
is non-empty and absent, then issues one `get` request; any failure is
logged and reported as `False`. -/
def download_file (renv : RemoteEnv) (lenv : LocalEnv) (st : ClientState)
    (remote_path local_path : String) : Except PyExc Bool × List Event :=
  if !st.is_connected then (Except.error PyExc.connectionError, [])
  else
    let local_dir := posixDirname local_path
    let needDirs := !(local_dir == "") && !lenv.path_exists local_dir
    let mkEvents := if needDirs then [Event.makedirs local_dir] else []
    let mkOk := if needDirs then lenv.makedirs local_dir else true
    if !mkOk then (Except.ok false, mkEvents ++ [Event.logMsg "Download failed"])
    else if renv.get remote_path local_path then
      (Except.ok true,
       mkEvents ++ [Event.remoteReq (RemoteReq.get remote_path local_path),
                    Event.logMsg ("Downloaded " ++ remote_path ++ " to " ++ local_path)])
    else
      (Except.ok false,
       mkEvents ++ [Event.remoteReq (RemoteReq.get remote_path local_path),
                    Event.logMsg "Download failed"])

/-- `SFTPClient.delete_remote_file` (lines 372-392). -/
def delete_remote_file (renv : RemoteEnv) (st : ClientState) (remote_path : String) :
    Except PyExc Bool × List Event :=
  if !st.is_connected then (Except.error PyExc.connectionError, [])
  else if renv.remove remote_path then
    (Except.ok true,
     [Event.remoteReq (RemoteReq.remove remote_path),
      Event.logMsg ("Deleted remote file: " ++ remote_path)])
  else
    (Except.ok false,
     [Event.remoteReq (RemoteReq.remove remote_path),
      Event.logMsg "Failed to delete remote file"])

/-- `SFTPClient.create_remote_directory` (lines 394-414). -/
def create_remote_directory (renv : RemoteEnv) (st : ClientState) (remote_path : String) :
    Except PyExc Bool × List Event :=
  if !st.is_connected then (Except.error PyExc.connectionError, [])
  else if renv.mkdir remote_path then
    (Except.ok true,
     [Event.remoteReq (RemoteReq.mkdir remote_path),
      Event.logMsg ("Created remote directory: " ++ remote_path)])
  else
    (Except.ok false,
     [Event.remoteReq (RemoteReq.mkdir remote_path),
      Event.logMsg "Failed to create remote directory"])

/-- `SFTPClient.delete_remote_directory` (lines 416-436). -/
def delete_remote_directory (renv : RemoteEnv) (st : ClientState) (remote_path : String) :
    Except PyExc Bool × List Event :=
  if !st.is_connected then (Except.error PyExc.connectionError, [])
  else if renv.rmdir remote_path then
    (Except.ok true,
     [Event.remoteReq (RemoteReq.rmdir remote_path),
      Event.logMsg ("Deleted remote directory: " ++ remote_path)])
  else
    (Except.ok false,
     [Event.remoteReq (RemoteReq.rmdir remote_path),
      Event.logMsg "Failed to delete remote directory"])

/-- `SFTPClient.get_remote_file_info` (lines 438-463): raises
`ConnectionError` when not connected; a stat failure is logged and
reported as `None`. -/
def get_remote_file_info (renv : RemoteEnv) (st : ClientState) (remote_path : String) :
    Except PyExc (Option RemoteFileInfo) × List Event :=
  if !st.is_connected then (Except.error PyExc.connectionError, [])
  else
    match renv.stat remote_path with
    | some si =>
      (Except.ok (some
        { size := si.st_size
        , modified := if natTruthy si.st_mtime then si.st_mtime else none
        , permissions :=
            if natTruthy si.st_mode then filemode (si.st_mode.getD 0) else "---------"
        , is_directory := if natTruthy si.st_mode then S_ISDIR (si.st_mode.getD 0) else false
        , is_file := if natTruthy si.st_mode then S_ISREG (si.st_mode.getD 0) else false }),
       [Event.remoteReq (RemoteReq.stat remote_path)])
    | none =>
      (Except.ok none,
       [Event.remoteReq (RemoteReq.stat remote_path),
        Event.logMsg "Failed to get file info"])

/-- The close events of a trace, in order. -/
def closeEvents (tr : List Event) : List Event :=
  tr.filter (fun e => e == Event.closeSftp || e == Event.closeSsh)

/-! Concrete fixtures used to evaluate the theorems on explicit inputs. -/

/-- A connected client with a registered status callback. -/
def stConn : ClientState :=
  { ssh_open := true, sftp_open := true, is_connected := true,
    host := some "h", port := 22, username := some "u",
    current_remote_path := "/a/b", current_local_path := "/l",
    has_status_callback := true }

/-- A remote oracle on which every request succeeds; the listing holds a
file, an upper-case directory and a lower-case directory. -/
def renvOk : RemoteEnv :=
  { listdirAttr := fun _ => some
      [ { filename := "notes.txt", st_size := some 10, st_mtime := some 5,
          st_mode := some 0o100644 }
      , { filename := "apps", st_size := some 0, st_mtime := none,
          st_mode := some 0o040700 }
      , { filename := "Docs", st_size := some 0, st_mtime := some 7,
          st_mode := some 0o040755 } ]
  , listdir := fun _ => true
  , put := fun _ _ => true
  , get := fun _ _ => true
  , remove := fun _ => true
  , mkdir := fun _ => true
  , rmdir := fun _ => true
  , stat := fun _ => some
      { filename := "f", st_size := some 1, st_mtime := some 1, st_mode := some 0o100644 } }

/-- A remote oracle on which every request raises. -/
def renvFail : RemoteEnv :=
  { listdirAttr := fun _ => none
  , listdir := fun _ => false
  , put := fun _ _ => false
  , get := fun _ _ => false
  , remove := fun _ => false
  , mkdir := fun _ => false
  , rmdir := fun _ => false
  , stat := fun _ => none }

/-- A local filesystem rooted at `/l` with a file `b.txt` and a
directory `Adir`; every path exists. -/
def lenvOk : LocalEnv :=
  { listdir := fun _ => some ["b.txt", "Adir"]
  , statInfo := fun p =>
      if p == "/l/Adir" then some { st_size := 0, st_mtime := 4, st_mode := 0o040755 }
      else some { st_size := 3, st_mtime := 4, st_mode := 0o100644 }
  , isdir := fun p => p == "/l/Adir" || p == "/l"
  , isfile := fun p => p == "/l/b.txt"
  , path_exists := fun _ => true
  , getsize := fun _ => 3
  , abspath := fun p => p
  , makedirs := fun _ => true }

/-- A local filesystem on which nothing exists. -/
def lenvMissing : LocalEnv :=
  { listdir := fun _ => none
  , statInfo := fun _ => none
  , isdir := fun _ => false
  , isfile := fun _ => false
  , path_exists := fun _ => false
  , getsize := fun _ => 0
  , abspath := fun p => p
  , makedirs := fun _ => false }

/-- A connect attempt whose transport authentication is rejected. -/
def cenvAuthFail : ConnectEnv :=
  { keyPathExists := true, keyLoad1 := KeyLoad.ok, keyLoad2 := KeyLoad2.ok,
    sshConnect := NetResult.authExc, sftpOpenOk := true, getcwdResult := none }

/-- A connect attempt that fails with a transport/handshake error. -/
def cenvSshFail : ConnectEnv :=
  { keyPathExists := true, keyLoad1 := KeyLoad.ok, keyLoad2 := KeyLoad2.ok,
    sshConnect := NetResult.sshExc, sftpOpenOk := true, getcwdResult := none }

/-- A connect attempt meeting a passphrase-protected key. -/
def cenvKeyEncrypted : ConnectEnv :=
  { keyPathExists := true, keyLoad1 := KeyLoad.passwordRequired, keyLoad2 := KeyLoad2.ok,
    sshConnect := NetResult.ok, sftpOpenOk := true, getcwdResult := some "/home/u" }

/-- A connect attempt whose key file fails to load for a
non-passphrase reason. -/
def cenvKeyBad : ConnectEnv :=
  { keyPathExists := true, keyLoad1 := KeyLoad.otherError, keyLoad2 := KeyLoad2.ok,
    sshConnect := NetResult.ok, sftpOpenOk := true, getcwdResult := some "/home/u" }

/-! Helper lemmas. -/

theorem one_le_length_of_ne_empty {s : String} (h : s ≠ "") : 1 ≤ s.length := by
  rcases s with ⟨data⟩
  cases data with
  | nil => exact absurd rfl h
  | cons c cs => simp [String.length]

theorem charListLE_total : ∀ as bs, (charListLE as bs || charListLE bs as) = true
  | [], [] => rfl
  | [], _ :: _ => rfl
  | _ :: _, [] => by simp [charListLE]
  | a :: as, b :: bs => by
    by_cases h1 : a < b
    · simp [charListLE, h1]
    · by_cases h2 : b < a
      · simp [charListLE, h1, h2]
      · simpa [charListLE, h1, h2] using charListLE_total as bs

theorem charListLE_trans : ∀ as bs cs, charListLE as bs = true → charListLE bs cs = true →
    charListLE as cs = true := by
  intro as
  induction as with
  | nil => intro bs cs _ _; rfl
  | cons a as ih =>
    intro bs cs h1 h2
    cases bs with
    | nil => simp [charListLE] at h1
    | cons b bs =>
      cases cs with
      | nil => simp [charListLE] at h2
      | cons c cs =>
        simp only [charListLE] at h1 h2 ⊢
        by_cases hab : a < b
        · by_cases hbc : b < c
          · simp [lt_trans hab hbc]
          · by_cases hcb : c < b
            · simp [hbc, hcb] at h2
            · have hbc2 : b = c := le_antisymm (not_lt.mp hcb) (not_lt.mp hbc)
              subst hbc2
              simp [hab]
        · by_cases hba : b < a
          · simp [hab, hba] at h1
          · have hab2 : a = b := le_antisymm (not_lt.mp hba) (not_lt.mp hab)
            subst hab2
            simp only [lt_irrefl, if_false] at h1 ⊢
            by_cases hac : a < c
            · simp [hac]
            · by_cases hca : c < a
              · simp [hac, hca] at h2
              · simp only [hac, hca, if_false] at h2 ⊢
                exact ih bs cs h1 h2

theorem mem_pyInsert (le : α → α → Bool) (a x : α) :
    ∀ l, x ∈ pyInsert le a l ↔ x = a ∨ x ∈ l := by
  intro l
  induction l with
  | nil => simp [pyInsert]
  | cons b bs ih =>
    simp only [pyInsert]
    by_cases h : le b a = true
    · rw [if_pos h]
      simp only [List.mem_cons, ih]
      tauto
    · rw [if_neg h]
      simp only [List.mem_cons]

theorem pairwise_pyInsert (le : α → α → Bool)
    (htrans : ∀ a b c, le a b = true → le b c = true → le a c = true)
    (htotal : ∀ a b, (le a b || le b a) = true)
    (a : α) : ∀ l, l.Pairwise (fun x y => le x y = true) →
      (pyInsert le a l).Pairwise (fun x y => le x y = true) := by
  intro l
  induction l with
  | nil => intro _; simp [pyInsert]
  | cons b bs ih =>
    intro h
    rcases List.pairwise_cons.mp h with ⟨hb, hbs⟩
    simp only [pyInsert]
    by_cases hba : le b a = true
    · rw [if_pos hba]
      refine List.pairwise_cons.mpr ⟨?_, ih hbs⟩
      intro x hx
      rcases (mem_pyInsert le a x bs).mp hx with rfl | hxbs
      · exact hba
      · exact hb x hxbs
    · rw [if_neg hba]
      have hab : le a b = true := by
        have htot := htotal b a
        rw [Bool.or_eq_true] at htot
        rcases htot with h1 | h1
        · exact absurd h1 hba
        · exact h1
      refine List.pairwise_cons.mpr ⟨?_, h⟩
      intro x hx
      rcases List.mem_cons.mp hx with rfl | hxbs
      · exact hab
      · exact htrans a b x hab (hb x hxbs)

theorem pairwise_pySort_aux (le : α → α → Bool)
    (htrans : ∀ a b c, le a b = true → le b c = true → le a c = true)
    (htotal : ∀ a b, (le a b || le b a) = true) :
    ∀ (l acc : List α), acc.Pairwise (fun x y => le x y = true) →
      (l.foldl (fun acc a => pyInsert le a acc) acc).Pairwise (fun x y => le x y = true) := by
  intro l
  induction l with
  | nil => intro acc h; simpa using h
  | cons a l ih =>
    intro acc h
    simp only [List.foldl_cons]
    exact ih _ (pairwise_pyInsert le htrans htotal a acc h)

theorem pairwise_pySort (le : α → α → Bool)
    (htrans : ∀ a b c, le a b = true → le b c = true → le a c = true)
    (htotal : ∀ a b, (le a b || le b a) = true) (l : List α) :
    (pySort le l).Pairwise (fun x y => le x y = true) :=
  pairwise_pySort_aux le htrans htotal l [] List.Pairwise.nil

theorem keyLE_trans : ∀ k1 k2 k3, keyLE k1 k2 = true → keyLE k2 k3 = true →
    keyLE k1 k3 = true := by
  rintro ⟨b1, s1⟩ ⟨b2, s2⟩ ⟨b3, s3⟩ h1 h2
  simp only [keyLE] at h1 h2 ⊢
  cases b1 <;> cases b2 <;> cases b3 <;> simp_all <;>
    exact charListLE_trans _ _ _ h1 h2

theorem keyLE_total : ∀ k1 k2, (keyLE k1 k2 || keyLE k2 k1) = true := by
  rintro ⟨b1, s1⟩ ⟨b2, s2⟩
  simp only [keyLE]
  cases b1 <;> cases b2 <;> simp <;>
    · have htot := charListLE_total s1 s2
      rw [Bool.or_eq_true] at htot
      exact htot

theorem resolve_parent_eq (P : String) :
    resolveRemotePath P ".." =
      (if (splitSlash (rstripSlash P).toList).length > 1 then
        (if joinSlash (splitSlash (rstripSlash P).toList).dropLast == "" then "/"
         else joinSlash (splitSlash (rstripSlash P).toList).dropLast)
       else "/") := rfl

theorem one_le_resolve_parent (P : String) : 1 ≤ (resolveRemotePath P "..").length := by
  rw [resolve_parent_eq]
  split
  · split
    · decide
    · rename_i hj
      exact one_le_length_of_ne_empty (by simpa using hj)
  · decide

/-- C3: remote path resolution appends a relative token as a new segment
under the cursor, takes a token starting with `/` verbatim, strips the
last segment on `..` (`/a/b` to `/a`), and on `..` never produces a path
shorter than `/`, with `/` mapping to `/`. -/
theorem resolve_remote_path_spec :
    resolveRemotePath "/a/b" "c" = "/a/b/c" ∧
    resolveRemotePath "/a/b" "/x" = "/x" ∧
    resolveRemotePath "/a/b" ".." = "/a" ∧
    resolveRemotePath "/" ".." = "/" ∧
    (∀ C t, startsWithSlash t = false → t ≠ ".." →
      resolveRemotePath C t = rstripSlash C ++ "/" ++ t) ∧
    (∀ C t, startsWithSlash t = true → resolveRemotePath C t = t) ∧
    (∀ P, startsWithSlash P = true → 1 ≤ (resolveRemotePath P "..").length) := by
  refine ⟨by decide, by decide, by decide, by decide, ?_, ?_, ?_⟩
  · intro C t h1 h2
    have hbeq : (t == "..") = false := beq_eq_false_iff_ne.mpr h2
    simp [resolveRemotePath, hbeq, h1]
  · intro C t h
    have h2 : (t == "..") = false := by
      rw [beq_eq_false_iff_ne]
      intro e
      rw [e] at h
      exact absurd h (by decide)
    simp [resolveRemotePath, h2, h]
  · intro P _hP
    exact one_le_resolve_parent P

/-- Concrete instantiation of `resolve_remote_path_spec`. -/
theorem resolve_remote_path_spec_witness :
    resolveRemotePath "/a/b" "c" = rstripSlash "/a/b" ++ "/" ++ "c" ∧
    resolveRemotePath "/a/b" "/x" = "/x" ∧
    1 ≤ (resolveRemotePath "/data" "..").length :=
  ⟨resolve_remote_path_spec.2.2.2.2.1 "/a/b" "c" (by decide) (by decide),
   resolve_remote_path_spec.2.2.2.2.2.1 "/a/b" "/x" (by decide),
   resolve_remote_path_spec.2.2.2.2.2.2 "/data" (by decide)⟩

theorem remoteSortLE_trans (a b c : RemoteEntry) : remoteSortLE a b = true →
    remoteSortLE b c = true → remoteSortLE a c = true := keyLE_trans _ _ _

theorem remoteSortLE_total (a b : RemoteEntry) :
    (remoteSortLE a b || remoteSortLE b a) = true := keyLE_total _ _

theorem localSortLE_trans (a b c : LocalEntry) : localSortLE a b = true →
    localSortLE b c = true → localSortLE a c = true := keyLE_trans _ _ _

theorem localSortLE_total (a b : LocalEntry) :
    (localSortLE a b || localSortLE b a) = true := keyLE_total _ _

theorem keyLE_entry_imp (d1 d2 : Bool) (n1 n2 : String)
    (h : keyLE (pyKey d1 n1) (pyKey d2 n2) = true) :
    (d1 = false → d2 = false) ∧
    (d1 = d2 → charListLE (n1.toList.map Char.toLower) (n2.toList.map Char.toLower) = true) := by
  cases d1 <;> cases d2
  · exact ⟨fun _ => rfl, fun _ => by simpa [pyKey, keyLE] using h⟩
  · simp [pyKey, keyLE] at h
  · exact ⟨fun _ => rfl, fun hc => Bool.noConfusion hc⟩
  · exact ⟨fun hc => Bool.noConfusion hc, fun _ => by simpa [pyKey, keyLE] using h⟩

theorem pairwise_remote_listing (files : List RemoteEntry) :
    (pySort remoteSortLE files).Pairwise (fun a b =>
      (a.is_directory = false → b.is_directory = false) ∧
      (a.is_directory = b.is_directory →
        charListLE (a.name.toList.map Char.toLower) (b.name.toList.map Char.toLower) = true)) :=
  (pairwise_pySort remoteSortLE remoteSortLE_trans remoteSortLE_total files).imp
    (fun h => keyLE_entry_imp _ _ _ _ h)

theorem pairwise_local_listing (files : List LocalEntry) :
    (pySort localSortLE files).Pairwise (fun a b =>
      (a.is_directory = false → b.is_directory = false) ∧
      (a.is_directory = b.is_directory →
        charListLE (a.name.toList.map Char.toLower) (b.name.toList.map Char.toLower) = true)) :=
  (pairwise_pySort localSortLE localSortLE_trans localSortLE_total files).imp
    (fun h => keyLE_entry_imp _ _ _ _ h)

/-- C4: every successful directory listing, local or remote, places all
directory entries before all non-directory entries, and within each
group the (lower-cased) names are in ascending code-point lexicographic
order. -/
theorem listing_order (renv : RemoteEnv) (lenv : LocalEnv) (st : ClientState)
    (p q : Option String) (l : List RemoteEntry) (l2 : List LocalEntry)
    (tr tr2 : List Event)
    (h1 : list_remote_directory renv st p = (Except.ok l, tr))
    (h2 : list_local_directory lenv st q = (Except.ok l2, tr2)) :
    (l.Pairwise (fun a b =>
      (a.is_directory = false → b.is_directory = false) ∧
      (a.is_directory = b.is_directory →
        charListLE (a.name.toList.map Char.toLower) (b.name.toList.map Char.toLower) = true))) ∧
    (l2.Pairwise (fun a b =>
      (a.is_directory = false → b.is_directory = false) ∧
      (a.is_directory = b.is_directory →
        charListLE (a.name.toList.map Char.toLower) (b.name.toList.map Char.toLower) = true))) := by
  constructor
  · unfold list_remote_directory at h1
    split at h1
    · simp at h1
    · dsimp only at h1
      split at h1
      · simp only [Prod.mk.injEq, Except.ok.injEq] at h1
        rw [← h1.1]
        exact pairwise_remote_listing _
      · simp at h1
  · unfold list_local_directory at h2
    dsimp only at h2
    split at h2
    · simp at h2
    · split at h2
      · simp at h2
      · simp only [Prod.mk.injEq, Except.ok.injEq] at h2
        rw [← h2.1]
        exact pairwise_local_listing _

/-- Concrete instantiation of `listing_order`. -/
theorem listing_order_witness :
    (((list_remote_directory renvOk stConn none).1.toOption.getD []).Pairwise (fun a b =>
      (a.is_directory = false → b.is_directory = false) ∧
      (a.is_directory = b.is_directory →
        charListLE (a.name.toList.map Char.toLower) (b.name.toList.map Char.toLower) = true))) ∧
    (((list_local_directory lenvOk stConn none).1.toOption.getD []).Pairwise (fun a b =>
      (a.is_directory = false → b.is_directory = false) ∧
      (a.is_directory = b.is_directory →
        charListLE (a.name.toList.map Char.toLower) (b.name.toList.map Char.toLower) = true))) :=
  listing_order renvOk lenvOk stConn none none
    ((list_remote_directory renvOk stConn none).1.toOption.getD [])
    ((list_local_directory lenvOk stConn none).1.toOption.getD [])
    [Event.remoteReq (RemoteReq.listdirAttr "/a/b")] []
    rfl rfl

/-- C5: every remote operation (listing, directory change, upload,
download, file/directory deletion, directory creation, stat) raises
`ConnectionError` and issues no request at all when the session is not
connected; hence a remote request is only ever issued in the connected
state. -/
theorem remote_ops_require_connection (renv : RemoteEnv) (lenv : LocalEnv)
    (st : ClientState) (p : Option String) (a b : String)
    (h : st.is_connected = false) :
    list_remote_directory renv st p = (Except.error PyExc.connectionError, []) ∧
    change_remote_directory renv st a = (Except.error PyExc.connectionError, st, []) ∧
    upload_file renv lenv st a b = (Except.error PyExc.connectionError, []) ∧
    download_file renv lenv st a b = (Except.error PyExc.connectionError, []) ∧
    delete_remote_file renv st a = (Except.error PyExc.connectionError, []) ∧
    create_remote_directory renv st a = (Except.error PyExc.connectionError, []) ∧
    delete_remote_directory renv st a = (Except.error PyExc.connectionError, []) ∧
    get_remote_file_info renv st a = (Except.error PyExc.connectionError, []) := by
  simp [list_remote_directory, change_remote_directory, upload_file, download_file,
        delete_remote_file, create_remote_directory, delete_remote_directory,
        get_remote_file_info, h]

/-- Concrete instantiation of `remote_ops_require_connection` on a
freshly initialized (disconnected) client. -/
theorem remote_ops_require_connection_witness :
    list_remote_directory renvOk (initState "/l") none =
      (Except.error PyExc.connectionError, []) ∧
    change_remote_directory renvOk (initState "/l") "x" =
      (Except.error PyExc.connectionError, initState "/l", []) ∧
    upload_file renvOk lenvOk (initState "/l") "x" "y" =
      (Except.error PyExc.connectionError, []) ∧
    download_file renvOk lenvOk (initState "/l") "x" "y" =
      (Except.error PyExc.connectionError, []) ∧
    delete_remote_file renvOk (initState "/l") "x" =
      (Except.error PyExc.connectionError, []) ∧
    create_remote_directory renvOk (initState "/l") "x" =
      (Except.error PyExc.connectionError, []) ∧
    delete_remote_directory renvOk (initState "/l") "x" =
      (Except.error PyExc.connectionError, []) ∧
    get_remote_file_info renvOk (initState "/l") "x" =
      (Except.error PyExc.connectionError, []) :=
  remote_ops_require_connection renvOk lenvOk (initState "/l") none "x" "y" rfl

/-- C6 (amended): `disconnect` is idempotent on the session state and on
the resources it releases — the SFTP channel is closed before the SSH
transport, nothing is closed that is not open (so a second call, or a
call on a never-connected client, closes nothing and cannot throw) — but
every call, including one on an already-disconnected session, emits the
"Disconnected" notification again. -/
theorem disconnect_idempotent_state (st : ClientState) :
    (disconnect (disconnect st).1).1 = (disconnect st).1 ∧
    closeEvents (disconnect (disconnect st).1).2 = [] ∧
    closeEvents (disconnect st).2 =
      (if st.sftp_open then [Event.closeSftp] else []) ++
      (if st.ssh_open then [Event.closeSsh] else []) := by
  rcases st with ⟨sshOpen, sftpOpen, conn, h, pt, u, rp, lp, cb⟩
  cases sshOpen <;> cases sftpOpen <;> cases cb <;>
    simp [disconnect, closeEvents, statusEvents]

/-- C6 counterexample: the second `disconnect` on an already-disconnected
session is not free of notification side effects — it emits the
"Disconnected" status notification again, duplicating the first call's
notification. -/
theorem disconnect_second_call_notifies :
    Event.statusCb "Disconnected" ∈ (disconnect stConn).2 ∧
    Event.statusCb "Disconnected" ∈ (disconnect (disconnect stConn).1).2 := by
  decide

/-- C8: uploading from a non-existent local path takes the
`FileNotFoundError` branch: the operation fails with the logged
not-found error (the code's `FileNotFoundError`, the spec's
`NotFoundError`, is caught by the method's own handler, which logs it
and returns `False`), and no remote request is issued — the trace is
exactly the not-found log line. -/
theorem upload_missing_source (renv : RemoteEnv) (lenv : LocalEnv) (st : ClientState)
    (lp rp : String) (hconn : st.is_connected = true)
    (hmiss : lenv.path_exists lp = false) :
    upload_file renv lenv st lp rp =
      (Except.ok false, [Event.logMsg ("Upload failed: Local file not found: " ++ lp)]) ∧
    (∀ r, Event.remoteReq r ∉ (upload_file renv lenv st lp rp).2) := by
  constructor
  · simp [upload_file, hconn, hmiss]
  · intro r
    simp [upload_file, hconn, hmiss]

/-- Concrete instantiation of `upload_missing_source`. -/
theorem upload_missing_source_witness :
    upload_file renvOk lenvMissing stConn "a.txt" "/r/a.txt" =
      (Except.ok false,
       [Event.logMsg ("Upload failed: Local file not found: " ++ "a.txt")]) ∧
    (∀ r, Event.remoteReq r ∉ (upload_file renvOk lenvMissing stConn "a.txt" "/r/a.txt").2) :=
  upload_missing_source renvOk lenvMissing stConn "a.txt" "/r/a.txt" rfl rfl

/-- C10: a failed directory change leaves the whole client state — in
particular the cursor — untouched, both remotely and locally; a
successful change moves the cursor exactly to the resolved target, and
only after the target was verified (remote: a `listdir` request for the
new cursor; local: the `isdir` test on the resolved path). -/
theorem change_directory_atomic (renv : RemoteEnv) (lenv : LocalEnv)
    (st : ClientState) (p : String) :
    ((change_remote_directory renv st p).1 = Except.ok false →
      (change_remote_directory renv st p).2.1 = st) ∧
    ((change_remote_directory renv st p).1 = Except.ok true →
      (change_remote_directory renv st p).2.1.current_remote_path =
        resolveRemotePath st.current_remote_path p ∧
      Event.remoteReq (RemoteReq.listdir (resolveRemotePath st.current_remote_path p)) ∈
        (change_remote_directory renv st p).2.2) ∧
    ((change_local_directory lenv st p).1 = false →
      (change_local_directory lenv st p).2.1 = st) ∧
    ((change_local_directory lenv st p).1 = true →
      lenv.isdir (localTargetPath st p) = true) := by
  refine ⟨?_, ?_, ?_, ?_⟩ <;> intro h
  · by_cases hc : (!st.is_connected) = true
    · simp [change_remote_directory, hc] at h
    · by_cases hl : renv.listdir (resolveRemotePath st.current_remote_path p) = true
      · simp [change_remote_directory, hc, hl] at h
      · simp [change_remote_directory, hc, hl]
  · by_cases hc : (!st.is_connected) = true
    · simp [change_remote_directory, hc] at h
    · by_cases hl : renv.listdir (resolveRemotePath st.current_remote_path p) = true
      · simp [change_remote_directory, hc, hl]
      · simp [change_remote_directory, hc, hl] at h
  · by_cases hd : lenv.isdir (localTargetPath st p) = true
    · simp [change_local_directory, hd] at h
    · simp [change_local_directory, hd]
  · by_cases hd : lenv.isdir (localTargetPath st p) = true
    · exact hd
    · simp [change_local_directory, hd] at h

/-- Concrete instantiation of `change_directory_atomic` on failing
directory changes: the state is unchanged. -/
theorem change_directory_atomic_witness :
    (change_remote_directory renvFail stConn "x").2.1 = stConn ∧
    (change_local_directory lenvMissing stConn "x").2.1 = stConn :=
  ⟨(change_directory_atomic renvFail lenvMissing stConn "x").1 rfl,
   (change_directory_atomic renvFail lenvMissing stConn "x").2.2.1 rfl⟩

theorem mem_statusEvents_iff (x : Event) (st : ClientState) (m : String) :
    x ∈ statusEvents st m ↔ st.has_status_callback = true ∧ x = Event.statusCb m := by
  unfold statusEvents
  split <;> rename_i h <;> simp [h]

/-- C1: when key material is supplied (a key path that is given and
exists, line 77), key-based authentication is attempted first: the
password is placed in the transport-connect call only as the fallback
after a non-passphrase key-load failure; a passphrase-protected key with
no password supplied fails immediately on the exit logging `Private key
is encrypted but no password provided` (the spec's `AuthMaterialError`)
with no network connect call at all — in particular no silent fallback
to password authentication; a non-passphrase key-load failure falls back
to password authentication exactly when a password is supplied, and with
no password fails on the exit logging `Failed to load private key` with
no connect attempt (the spec's `AuthenticationError` exit; the
caller-visible value on both failure exits is the generic `False`, see
C9). -/
theorem connect_auth_order (env : ConnectEnv) (st : ClientState)
    (host username : String) (password private_key_path : Option String) (port : Nat)
    (hkey : (strTruthy private_key_path && env.keyPathExists) = true) :
    (∀ k : Bool, Event.netConnect k true ∈
        (connect env st host username password private_key_path port).2.2 →
      env.keyLoad1 = KeyLoad.otherError ∧ strTruthy password = true) ∧
    (env.keyLoad1 = KeyLoad.ok →
      (connect env st host username password private_key_path port).2.2.head? =
        some (Event.netConnect true false)) ∧
    (env.keyLoad1 = KeyLoad.passwordRequired → strTruthy password = false →
      (connect env st host username password private_key_path port).1 = false ∧
      (connect env st host username password private_key_path port).2.2 =
        [Event.logMsg "Private key is encrypted but no password provided"]) ∧
    (env.keyLoad1 = KeyLoad.otherError → strTruthy password = true →
      Event.netConnect false true ∈
        (connect env st host username password private_key_path port).2.2) ∧
    (env.keyLoad1 = KeyLoad.otherError → strTruthy password = false →
      (connect env st host username password private_key_path port).1 = false ∧
      (connect env st host username password private_key_path port).2.2 =
        [Event.logMsg "Failed to load private key"]) := by
  rcases env with ⟨ke, k1, k2, sc, so, gc⟩
  refine ⟨?_, ?_, ?_, ?_, ?_⟩
  · intro k hk
    cases k1 <;> cases hpw : strTruthy password <;> cases k2 <;> cases sc <;> cases so <;>
      simp_all [connect, connectViaNet, statusEvents, hkey]
  · intro h1
    cases k1 <;> cases hpw : strTruthy password <;> cases k2 <;> cases sc <;> cases so <;>
      simp_all [connect, connectViaNet, statusEvents, hkey]
  · intro h1 hpw
    cases k1 <;> simp_all [connect, connectViaNet, statusEvents, hkey]
  · intro h1 hpw
    cases k1 <;> cases sc <;> cases so <;>
      simp_all [connect, connectViaNet, statusEvents, hkey]
  · intro h1 hpw
    cases k1 <;> simp_all [connect, connectViaNet, statusEvents, hkey]

/-- Concrete instantiation of `connect_auth_order`: a
passphrase-protected key without a password fails with only the
`AuthMaterialError` log line, and a transport-level key failure with a
password falls back to password authentication. -/
theorem connect_auth_order_witness :
    ((connect cenvKeyEncrypted (initState "/l") "h" "u" none (some "/k") 22).1 = false ∧
     (connect cenvKeyEncrypted (initState "/l") "h" "u" none (some "/k") 22).2.2 =
       [Event.logMsg "Private key is encrypted but no password provided"]) ∧
    Event.netConnect false true ∈
      (connect cenvKeyBad (initState "/l") "h" "u" (some "pw") (some "/k") 22).2.2 :=
  ⟨(connect_auth_order cenvKeyEncrypted (initState "/l") "h" "u" none (some "/k") 22
      rfl).2.2.1 rfl rfl,
   (connect_auth_order cenvKeyBad (initState "/l") "h" "u" (some "pw") (some "/k") 22
      rfl).2.2.2.1 rfl rfl⟩

/-- C2: with no usable key material and no password, `connect` fails on
the exit logging `No authentication method provided` (the spec's
`ConfigurationError`) before any network I/O — the trace is exactly that
log line, so no transport connect, channel open or remote request
happened; with only a password, password authentication is used
directly: the first external action is the transport connect carrying
the password. -/
theorem connect_no_credentials (env : ConnectEnv) (st : ClientState)
    (host username : String) (password private_key_path : Option String) (port : Nat)
    (hkey : (strTruthy private_key_path && env.keyPathExists) = false) :
    (strTruthy password = false →
      (connect env st host username password private_key_path port).1 = false ∧
      (connect env st host username password private_key_path port).2.2 =
        [Event.logMsg "No authentication method provided"]) ∧
    (strTruthy password = true →
      (connect env st host username password private_key_path port).2.2.head? =
        some (Event.netConnect false true)) := by
  constructor
  · intro hpw
    simp [connect, hkey, hpw]
  · intro hpw
    rcases env with ⟨ke, k1, k2, sc, so, gc⟩
    cases hk : strTruthy private_key_path <;> cases ke <;> cases sc <;> cases so <;>
      simp_all [connect, connectViaNet, statusEvents, hpw]

/-- Concrete instantiation of `connect_no_credentials`. -/
theorem connect_no_credentials_witness :
    ((connect cenvAuthFail (initState "/l") "h" "u" none none 22).1 = false ∧
     (connect cenvAuthFail (initState "/l") "h" "u" none none 22).2.2 =
       [Event.logMsg "No authentication method provided"]) ∧
    (connect cenvAuthFail (initState "/l") "h" "u" (some "pw") none 22).2.2.head? =
      some (Event.netConnect false true) :=
  ⟨(connect_no_credentials cenvAuthFail (initState "/l") "h" "u" none none 22 rfl).1 rfl,
   (connect_no_credentials cenvAuthFail (initState "/l") "h" "u" (some "pw") none 22 rfl).2 rfl⟩

/-- C7 (amended): a failed connect attempt leaves the session state not
Connected (when it was not Connected before the call), but it does NOT
release the transport resources opened during the attempt: the
`SSHClient` created at line 65 is still held and no close of either
channel is ever issued by `connect`. -/
theorem connect_failure_keeps_transport (env : ConnectEnv) (st : ClientState)
    (host username : String) (password private_key_path : Option String) (port : Nat)
    (hdisc : st.is_connected = false)
    (hfail : (connect env st host username password private_key_path port).1 = false) :
    (connect env st host username password private_key_path port).2.1.is_connected = false ∧
    (connect env st host username password private_key_path port).2.1.ssh_open = true ∧
    Event.closeSsh ∉ (connect env st host username password private_key_path port).2.2 ∧
    Event.closeSftp ∉ (connect env st host username password private_key_path port).2.2 := by
  revert hfail
  unfold connect connectViaNet
  dsimp only
  repeat' split
  all_goals intro hfail
  all_goals simp_all [mem_statusEvents_iff, hdisc]

/-- Concrete instantiation of `connect_failure_keeps_transport`. -/
theorem connect_failure_keeps_transport_witness :
    (connect cenvSshFail (initState "/l") "h" "u" (some "pw") none 22).2.1.is_connected =
      false ∧
    (connect cenvSshFail (initState "/l") "h" "u" (some "pw") none 22).2.1.ssh_open = true ∧
    Event.closeSsh ∉ (connect cenvSshFail (initState "/l") "h" "u" (some "pw") none 22).2.2 ∧
    Event.closeSftp ∉ (connect cenvSshFail (initState "/l") "h" "u" (some "pw") none 22).2.2 :=
  connect_failure_keeps_transport cenvSshFail (initState "/l") "h" "u" (some "pw") none 22
    rfl rfl

/-- C7 counterexample: after a connect attempt rejected at
authentication, the client still holds the SSH transport it created and
issued no close — the transport channel opened during the failed attempt
is not released. -/
theorem connect_failure_transport_dangling :
    (connect cenvAuthFail (initState "/l") "h" "u" (some "pw") none 22).1 = false ∧
    (connect cenvAuthFail (initState "/l") "h" "u" (some "pw") none 22).2.1.ssh_open = true ∧
    Event.closeSsh ∉ (connect cenvAuthFail (initState "/l") "h" "u" (some "pw") none 22).2.2 := by
  refine ⟨rfl, rfl, ?_⟩
  decide

/-- C9 (amended): no failure is silently swallowed — every operation
that cannot meet its postcondition surfaces a failure to its caller —
but apart from `ConnectionError` and the re-raise in the listing
methods, the surfaced value is the generic undifferentiated `False`
(`None` for stat), whatever the cause; the cause is recorded only in the
log trace. -/
theorem failures_surface_generically (renv : RemoteEnv) (lenv : LocalEnv)
    (st : ClientState) (lp rp p : String) (q : Option String)
    (hconn : st.is_connected = true) :
    (lenv.path_exists lp = false → (upload_file renv lenv st lp rp).1 = Except.ok false) ∧
    (renv.put lp rp = false → lenv.path_exists lp = true →
      (upload_file renv lenv st lp rp).1 = Except.ok false) ∧
    (renv.get rp lp = false → (download_file renv lenv st rp lp).1 = Except.ok false) ∧
    (renv.remove p = false → (delete_remote_file renv st p).1 = Except.ok false) ∧
    (renv.mkdir p = false → (create_remote_directory renv st p).1 = Except.ok false) ∧
    (renv.rmdir p = false → (delete_remote_directory renv st p).1 = Except.ok false) ∧
    (renv.stat p = none → (get_remote_file_info renv st p).1 = Except.ok none) ∧
    (renv.listdirAttr (q.getD st.current_remote_path) = none →
      (list_remote_directory renv st q).1 = Except.error PyExc.raised) ∧
    (∀ env host username password pk port, env.sshConnect ≠ NetResult.ok →
      (connect env st host username password pk port).1 = false) := by
  refine ⟨?_, ?_, ?_, ?_, ?_, ?_, ?_, ?_, ?_⟩
  · intro h
    simp [upload_file, hconn, h]
  · intro h1 h2
    simp [upload_file, hconn, h1, h2]
  · intro h
    by_cases hd : (!(posixDirname lp == "") && !lenv.path_exists (posixDirname lp)) = true
    · by_cases hm : lenv.makedirs (posixDirname lp) = true
      · simp [download_file, hconn, h, hd, hm]
      · simp [download_file, hconn, hd, hm]
    · simp [download_file, hconn, h, hd]
  · intro h
    simp [delete_remote_file, hconn, h]
  · intro h
    simp [create_remote_directory, hconn, h]
  · intro h
    simp [delete_remote_directory, hconn, h]
  · intro h
    simp [get_remote_file_info, hconn, h]
  · intro h
    simp [list_remote_directory, hconn, h]
  · intro env host username password pk port hsc
    unfold connect connectViaNet
    dsimp only
    repeat' split
    all_goals simp_all

/-- Concrete instantiation of `failures_surface_generically`. -/
theorem failures_surface_generically_witness :
    (upload_file renvFail lenvMissing stConn "a" "/r/a").1 = Except.ok false ∧
    (download_file renvFail lenvOk stConn "/r/a" "/l/a").1 = Except.ok false ∧
    (delete_remote_file renvFail stConn "/r/a").1 = Except.ok false ∧
    (connect cenvSshFail (initState "/l") "h" "u" (some "pw") none 22).1 = false :=
  ⟨(failures_surface_generically renvFail lenvMissing stConn "a" "/r/a" "/r/a" none rfl).1 rfl,
   (failures_surface_generically renvFail lenvOk stConn "a" "/r/a" "/r/a" none
      rfl).2.2.1 rfl,
   (failures_surface_generically renvFail lenvOk stConn "a" "/r/a" "/r/a" none
      rfl).2.2.2.1 rfl,
   (failures_surface_generically renvFail lenvOk stConn "a" "/r/a" "/r/a" none
      rfl).2.2.2.2.2.2.2.2 cenvSshFail "h" "u" (some "pw") none 22 (by decide)⟩

/-- C9 counterexample: two upload failures of different kinds (source
missing vs. the remote `put` raising) return the identical caller-visible
value, and two connect failures of different kinds (authentication
rejected vs. transport handshake error) both return the bare `False` —
the caller cannot distinguish the error kind from the result. -/
theorem failures_indistinguishable_by_caller :
    (upload_file renvFail lenvMissing stConn "a.txt" "/r/a.txt").1 = Except.ok false ∧
    (upload_file renvFail lenvOk stConn "a.txt" "/r/a.txt").1 = Except.ok false ∧
    (upload_file renvFail lenvMissing stConn "a.txt" "/r/a.txt").1 =
      (upload_file renvFail lenvOk stConn "a.txt" "/r/a.txt").1 ∧
    (connect cenvAuthFail (initState "/l") "h" "u" (some "pw") none 22).1 = false ∧
    (connect cenvSshFail (initState "/l") "h" "u" (some "pw") none 22).1 = false :=
  ⟨rfl, rfl, rfl, rfl, rfl⟩

end SFTP
